import Mathlib

/-!
Verification of the schedule-matching and cost-aggregation engine of
`source/cost_calculation.py` (IntelligentSocketDatalogger).

The Python module is shallowly embedded below.  Conventions of the embedding:

* `datetime` values are modelled by `Date` (year/month/day); all timestamps the
  engine manipulates keep their time of day unchanged, so the time of day is
  dropped and window lengths are whole numbers of days.
* Python `float` arithmetic is modelled by exact rationals `ℚ`; Python's
  `round(x, n)` (round half to even on the scaled value) is `pyRound`.
* Fallible Python code returns `Except PyErr`; the module-level mutable dict
  `configuration_failed_message_send` is threaded explicitly as a `WarnDict`
  whose keys distinguish string keys from exception-class keys, because the
  source initialises the dict with the *strings* "FileNotFoundError" and
  "ValueError" but indexes it with the exception *classes*.
* The JSON configuration file and the InfluxDB measurement fetch are external
  collaborators; they enter as explicit parameters (`ConfigFile`, a `fetch`
  function).
-/

/-- Gregorian leap-year rule, as implemented by Python's `datetime`/`calendar`. -/
def isLeapYear (y : ℕ) : Bool :=
  (y % 4 == 0 && y % 100 != 0) || (y % 400 == 0)

/-- Length of month `m` (1--12) of year `y` in the proleptic Gregorian calendar
used by Python's `datetime`. -/
def daysInMonth (y m : ℕ) : ℕ :=
  if m = 2 then (if isLeapYear y then 29 else 28)
  else if m = 4 ∨ m = 6 ∨ m = 9 ∨ m = 11 then 30
  else 31

/-- A calendar date, the model of the date part of a Python `datetime`. -/
structure Date where
  year : ℕ
  month : ℕ
  day : ℕ
deriving DecidableEq, Repr

/-- Validity of a date, as enforced by Python's `datetime` constructor. -/
def Date.valid (d : Date) : Prop :=
  1 ≤ d.year ∧ 1 ≤ d.month ∧ d.month ≤ 12 ∧ 1 ≤ d.day ∧ d.day ≤ daysInMonth d.year d.month

instance (d : Date) : Decidable d.valid := by
  unfold Date.valid; infer_instance

/-- The previous calendar day: model of `datetime - timedelta(days=1)`. -/
def predDay (d : Date) : Date :=
  if 2 ≤ d.day then ⟨d.year, d.month, d.day - 1⟩
  else if 2 ≤ d.month then ⟨d.year, d.month - 1, daysInMonth d.year (d.month - 1)⟩
  else ⟨d.year - 1, 12, 31⟩

/-- Days in year `y` strictly before month `m` (months counted 1--12). -/
def daysBeforeMonth (y : ℕ) : ℕ → ℕ
  | 0 => 0
  | 1 => 0
  | (m + 2) => daysBeforeMonth y (m + 1) + daysInMonth y (m + 1)

/-- Proleptic-Gregorian ordinal of a date (day 1 = 0001-01-01), the model of
`datetime.toordinal`; differences of ordinals measure `timedelta` in days. -/
def toOrdinal (d : Date) : ℕ :=
  365 * (d.year - 1) + (d.year - 1) / 4 - (d.year - 1) / 100 + (d.year - 1) / 400
    + daysBeforeMonth d.year d.month + d.day

/-- Model of `dateutil.relativedelta` restricted to the relative fields the
engine uses (`days`, `months`, `years`). -/
structure RelativeDelta where
  days : ℕ := 0
  months : ℕ := 0
  years : ℕ := 0
deriving DecidableEq, Repr

/-- Subtract `k` months from year/month `(y, m)` (months 1--12), the
normalisation performed by `relativedelta`. -/
def subMonths (y m k : ℕ) : ℕ × ℕ :=
  let t := y * 12 + (m - 1) - k
  (t / 12, t % 12 + 1)

/-- Model of `datetime - relativedelta(...)` for nonnegative relative fields:
years and months are subtracted with calendar normalisation, the day is clamped
to the length of the resulting month, then whole days are subtracted. -/
def Date.subRelativeDelta (d : Date) (td : RelativeDelta) : Date :=
  let y1 := d.year - td.years
  let ym := subMonths y1 d.month td.months
  let day1 := min d.day (daysInMonth ym.1 ym.2)
  predDay^[td.days] ⟨ym.1, ym.2, day1⟩

/-- Model of `(end_date - start_date).total_seconds()`: both window bounds carry
the same time of day, so the difference is a whole number of days. -/
def total_seconds (start_date end_date : Date) : ℚ :=
  (((toOrdinal end_date : ℤ) - (toOrdinal start_date : ℤ)) * 86400 : ℤ)

/-- Digits of a numeral, most significant first, to a natural number. -/
def digitsToNat (l : List Char) : ℕ :=
  l.foldl (fun a c => a * 10 + (c.toNat - 48)) 0

/-- Characters stripped by Python's `int(...)`/`float(...)`/`str.strip()`. -/
def isPySpace (c : Char) : Bool :=
  c = ' ' || c = '\n' || c = '\t' || c = '\r'

/-- Strip leading and trailing whitespace from a character list. -/
def stripChars (l : List Char) : List Char :=
  ((l.dropWhile isPySpace).reverse.dropWhile isPySpace).reverse

/-- Model of Python `int(s)` on the digit strings accepted by the schedule
regexes (surrounding whitespace is stripped, then digits are read). -/
def pyInt (s : String) : ℕ :=
  digitsToNat (stripChars s.data)

/-- Round a rational to the nearest integer, ties to even, as Python `round`
does on exact values. -/
def roundHalfToEven (q : ℚ) : ℤ :=
  let f : ℤ := q.floor
  if q - f < 1 / 2 then f
  else if (1 : ℚ) / 2 < q - f then f + 1
  else if f % 2 = 0 then f else f + 1

/-- Model of Python `round(q, n)` on exact rationals. -/
def pyRound (q : ℚ) (n : ℕ) : ℚ :=
  (roundHalfToEven (q * 10 ^ n) : ℚ) / 10 ^ n

/-- Split a character list at every occurrence of `c`, keeping empty pieces:
the semantics of Python `str.split(c)` and of `String.splitOn`. -/
def splitOnChar (c : Char) (l : List Char) : List (List Char) :=
  l.foldr
    (fun x acc =>
      match acc with
      | [] => [[x]]
      | a :: rest => if x = c then [] :: (a :: rest) else (x :: a) :: rest)
    [[]]

/-- Model of Python `str.replace(",", ".")` (single-character replacement). -/
def commaToDot (s : String) : String :=
  String.mk (s.data.map (fun c => if c = ',' then '.' else c))

/-- Model of Python `float(s)` on the nonnegative decimal literals relevant to
the price setting: optional surrounding whitespace, digits, an optional dot and
fractional digits; anything else fails (`ValueError`). -/
def pyFloatParse (s : String) : Option ℚ :=
  let t : List Char := stripChars s.data
  match splitOnChar '.' t with
  | [a] =>
      if a ≠ [] ∧ a.all Char.isDigit then some (digitsToNat a) else none
  | [a, b] =>
      if (a ≠ [] ∨ b ≠ []) ∧ a.all Char.isDigit ∧ b.all Char.isDigit then
        some ((digitsToNat a : ℚ) + (digitsToNat b : ℚ) / 10 ^ b.length)
      else none
  | _ => none

/-- Match of `re.search(r"^(?:[01]\d|2[0-3]):(?:[0-5]\d)$", s)`: a valid
"HH:MM" time of day (the `$` anchor also matches before one final newline). -/
def matchTimeOfDaySchedule (s : String) : Bool :=
  let core : List Char → Bool := fun l =>
    match l with
    | [h1, h2, c, m1, m2] =>
        (((h1 = '0' || h1 = '1') && h2.isDigit) || (h1 = '2' && '0' ≤ h2 && h2 ≤ '3'))
          && c = ':' && ('0' ≤ m1 && m1 ≤ '5') && m2.isDigit
    | _ => false
  core s.data ||
    (match s.data.getLast? with
     | some '\n' => core s.data.dropLast
     | _ => false)

/-- Match of `re.search(r"^[\d]{2}$", s)`: exactly two digits (the `$` anchor
also matches before one final newline). -/
def matchDayOfMonthSchedule (s : String) : Bool :=
  match s.data with
  | [a, b] => a.isDigit && b.isDigit
  | [a, b, c] => a.isDigit && b.isDigit && c = '\n'
  | _ => false

/-- Match of `re.search(r"^[\d]{2}[.][\d]{2}$", s)`: two digits, a literal dot,
two digits (the `$` anchor also matches before one final newline). -/
def matchDateOfYearSchedule (s : String) : Bool :=
  match s.data with
  | [a, b, c, d, e] => a.isDigit && b.isDigit && c = '.' && d.isDigit && e.isDigit
  | [a, b, c, d, e, f] => a.isDigit && b.isDigit && c = '.' && d.isDigit && e.isDigit && f = '\n'
  | _ => false

/-- Python exceptions that can escape the embedded functions. -/
inductive PyErr
  | fileNotFoundError
  | valueError
  | keyError
  | attributeError
  | unboundLocalError
  | zeroDivisionError
deriving DecidableEq, Repr

/-- A key of the module-level dict `configuration_failed_message_send`.  The
source initialises the dict with *string* keys but indexes it with the
exception *classes* `FileNotFoundError` / `ValueError`; the two kinds of key
are never equal, exactly as in Python. -/
inductive DictKey
  | str (s : String)
  | excClass (e : PyErr)
deriving DecidableEq, Repr

/-- The state of `configuration_failed_message_send`. -/
abbrev WarnDict := List (DictKey × Bool)

/-- `configuration_failed_message_send = {"FileNotFoundError": False, "ValueError": False}`. -/
def configuration_failed_message_send : WarnDict :=
  [(DictKey.str "FileNotFoundError", false), (DictKey.str "ValueError", false)]

/-- Python dict read `d[k]`: `KeyError` when the key is absent. -/
def dictGet (d : WarnDict) (k : DictKey) : Except PyErr Bool :=
  match d.lookup k with
  | some v => Except.ok v
  | none => Except.error PyErr.keyError

/-- Python dict write `d[k] = v`. -/
def dictSet (d : WarnDict) (k : DictKey) (v : Bool) : WarnDict :=
  match d with
  | [] => [(k, v)]
  | (k1, v1) :: rest => if k1 = k then (k, v) :: rest else (k1, v1) :: dictSet rest k v

/-- A JSON value stored under `general.price_kwh`. -/
inductive JsonPrice
  | flt (q : ℚ)
  | intg (n : ℤ)
  | str (s : String)
deriving DecidableEq, Repr

/-- The `"general"` section of the configuration file. -/
structure GeneralConfig where
  cost_calc_request_time : Option String := none
  price_kwh : Option JsonPrice := none
deriving DecidableEq, Repr

/-- The configuration file as seen through `open` + `json.load`. -/
inductive ConfigFile
  | missing
  | present (general : Option GeneralConfig)
deriving DecidableEq, Repr

/-- Embedding of `check_cost_calc_request_time`.  The `except FileNotFoundError`
handler indexes `configuration_failed_message_send` with the exception class
`FileNotFoundError`, a key the dict does not contain. -/
def check_cost_calc_request_time (cfg : ConfigFile) (sent : WarnDict) :
    Except PyErr (String × WarnDict) :=
  let checked_requested_start_time := "00:00"
  match cfg with
  | .missing =>
      match dictGet sent (DictKey.excClass PyErr.fileNotFoundError) with
      | .error e => .error e
      | .ok b =>
          if !b then
            .ok (checked_requested_start_time,
                 dictSet sent (DictKey.excClass PyErr.fileNotFoundError) true)
          else
            .ok (checked_requested_start_time, sent)
  | .present general =>
      match general with
      | some g =>
          match g.cost_calc_request_time with
          | some requested_start_time =>
              if matchTimeOfDaySchedule requested_start_time then
                .ok (requested_start_time, sent)
              else
                .ok (checked_requested_start_time, sent)
          | none => .ok (checked_requested_start_time, sent)
      | none => .ok (checked_requested_start_time, sent)

/-- Embedding of `check_cost_config`.  `checked_requested_kwh_price` is only
assigned inside the `if`, so when `general`/`price_kwh` is absent the final
`return` raises `UnboundLocalError`; a non-string non-float price raises
`AttributeError` at `.replace`; the two `except` handlers index
`configuration_failed_message_send` with exception classes, keys the dict does
not contain. -/
def check_cost_config (cfg : ConfigFile) (sent : WarnDict) :
    Except PyErr (ℚ × WarnDict) :=
  let default_price : ℚ := 3 / 10
  match cfg with
  | .missing =>
      match dictGet sent (DictKey.excClass PyErr.fileNotFoundError) with
      | .error e => .error e
      | .ok b =>
          if !b then
            .ok (default_price, dictSet sent (DictKey.excClass PyErr.fileNotFoundError) true)
          else
            .ok (default_price, sent)
  | .present general =>
      match general with
      | some g =>
          match g.price_kwh with
          | some (JsonPrice.flt q) => .ok (pyRound q 3, sent)
          | some (JsonPrice.intg _) => .error PyErr.attributeError
          | some (JsonPrice.str s) =>
              match pyFloatParse (commaToDot s) with
              | some q => .ok (pyRound q 3, sent)
              | none =>
                  match dictGet sent (DictKey.excClass PyErr.valueError) with
                  | .error e => .error e
                  | .ok b =>
                      if !b then
                        .ok (default_price, dictSet sent (DictKey.excClass PyErr.valueError) true)
                      else
                        .ok (default_price, sent)
          | none => .error PyErr.unboundLocalError
      | none => .error PyErr.unboundLocalError

/-- Embedding of `last_day_of_month`. -/
def last_day_of_month (date : Date) : Date :=
  if date.month = 12 then { date with day := 31 }
  else predDay ⟨date.year, date.month + 1, 1⟩

/-- Embedding of `check_month_parameter`. -/
def check_month_parameter (month : String) : ℕ :=
  let checked_month := pyInt month
  if checked_month < 1 ∨ checked_month > 12 then 1 else checked_month

/-- Embedding of `check_day_parameter`. -/
def check_day_parameter (day : String) : ℕ :=
  let checked_day := pyInt day
  if checked_day < 1 ∨ checked_day > 31 then 1 else checked_day

/-- The `{"day": _, "month": _}` dict built by `check_year_parameter`. -/
structure YearTarget where
  day : ℕ
  month : ℕ
deriving DecidableEq, Repr

/-- Embedding of `check_year_parameter`. -/
def check_year_parameter (day_month : String) : YearTarget :=
  let split_date := (splitOnChar '.' day_month.data).map String.mk
  { month := check_month_parameter (split_date.getD 1 ""),
    day := check_day_parameter (split_date.getD 0 "") }

/-- The device settings consumed by the engine: presence of a key is an
`Option`, and the value of `cost_calc_day` is its Python truthiness. -/
structure Settings where
  cost_calc_day : Option Bool := none
  cost_calc_month : Option String := none
  cost_calc_year : Option String := none
  update_time : ℚ := 1
deriving DecidableEq, Repr

/-- The `start_schedule_task` dict returned by `check_cost_calc_requested`. -/
structure RequestedCalc where
  start_schedule_task : Bool
  cost_day : Bool
  cost_month : Option ℕ
  cost_year : Option YearTarget
deriving DecidableEq, Repr

/-- Embedding of `check_cost_calc_requested`. -/
def check_cost_calc_requested (settings : Settings) : RequestedCalc :=
  let r0 : RequestedCalc :=
    { start_schedule_task := false, cost_day := false, cost_month := none, cost_year := none }
  let r1 :=
    match settings.cost_calc_day with
    | some b =>
        if b then
          { r0 with cost_day := true, start_schedule_task := r0.start_schedule_task || true }
        else r0
    | none => r0
  let r2 :=
    match settings.cost_calc_month with
    | some s =>
        if matchDayOfMonthSchedule s then
          { r1 with cost_month := some (check_month_parameter s),
                    start_schedule_task := r1.start_schedule_task || true }
        else r1
    | none => r1
  match settings.cost_calc_year with
  | some s =>
      if matchDateOfYearSchedule s then
        { r2 with cost_year := some (check_year_parameter s),
                  start_schedule_task := r2.start_schedule_task || true }
      else r2
  | none => r2

/-- Embedding of `check_matched_day`. -/
def check_matched_day (current_date : Date) (target_day : ℕ) : Bool :=
  let last_day_of_current_month := last_day_of_month current_date
  if target_day > last_day_of_current_month.day then
    if current_date.day = last_day_of_current_month.day then true else false
  else
    if current_date.day = target_day then true else false

/-- Embedding of `check_matched_day_and_month`. -/
def check_matched_day_and_month (current_date : Date) (target_day target_month : ℕ) : Bool :=
  if check_matched_day current_date target_day then
    if current_date.month = target_month then true else false
  else false

/-- One fetched measurement point. -/
structure Measurement where
  fetch_success : Bool
  energy_wh : ℚ
deriving DecidableEq, Repr

/-- The `data` dict handed to `sf.cost_logging`; the window bounds are kept as
dates (the source formats them as "%Y-%m-%d %H:%M:%S" strings). -/
structure CostData where
  start_date : Date
  end_date : Date
  sum_of_energy : ℚ
  total_cost : ℚ
  cost_kwh : ℚ
  error_rate_one : ℚ
  error_rate_two : ℚ
deriving DecidableEq, Repr

/-- Embedding of `cost_calc`.  `fetch` models `sf.fetch_measurements` (queried
with the formatted window bounds); the returned list pairs each
`sf.cost_logging` key with its record.  Division by a zero `update_time`, or by
a zero `max_values`, raises `ZeroDivisionError` exactly where Python would. -/
def cost_calc (device_name : String) (settings : Settings) (cfg : ConfigFile)
    (sent : WarnDict) (fetch : Date → Date → List Measurement)
    (current_timestamp : Date) (time_difference : RelativeDelta) :
    Except PyErr (List (String × CostData) × WarnDict) :=
  let start_date := current_timestamp.subRelativeDelta time_difference
  let end_date := current_timestamp
  let result := fetch start_date end_date
  let success_measurements := result.filter (fun measurement => measurement.fetch_success)
  let failed_measurements := result.filter (fun measurement => !measurement.fetch_success)
  let sum_of_energy_in_kwh :=
    pyRound (((success_measurements.map Measurement.energy_wh).sum) / 1000) 2
  match check_cost_config cfg sent with
  | .error e => .error e
  | .ok (cost_kwh, sent1) =>
      if success_measurements.length + failed_measurements.length = 0 then
        .ok ([], sent1)
      else if settings.update_time = 0 then
        .error PyErr.zeroDivisionError
      else
        let max_values := total_seconds start_date end_date / settings.update_time
        if max_values = 0 then
          .error PyErr.zeroDivisionError
        else
          let data : CostData :=
            { start_date := start_date
              end_date := end_date
              sum_of_energy := sum_of_energy_in_kwh
              total_cost := sum_of_energy_in_kwh * cost_kwh
              cost_kwh := cost_kwh
              error_rate_one :=
                (failed_measurements.length : ℚ) * 100 /
                  ((success_measurements.length : ℚ) + (failed_measurements.length : ℚ))
              error_rate_two :=
                (max_values - (success_measurements.length : ℚ)) * 100 / max_values }
          if time_difference.days = 1 then
            .ok ([(device_name ++ "_day", data)], sent1)
          else if time_difference.months = 1 then
            .ok ([(device_name ++ "_month", data)], sent1)
          else if time_difference.years = 1 then
            .ok ([(device_name ++ "_year", data)], sent1)
          else
            .ok ([], sent1)

/-- Embedding of `cost_calc_handler`: `datetime.utcnow()` is captured once in
`now` and reused for every cadence check; the three `cost_calc` calls thread
the process state and their emitted records are concatenated. -/
def cost_calc_handler (device_name : String) (settings : Settings)
    (cost_calc_requested : RequestedCalc) (cfg : ConfigFile) (sent : WarnDict)
    (fetch : Date → Date → List Measurement) (now : Date) :
    Except PyErr (List (String × CostData) × WarnDict) :=
  let step1 :=
    if cost_calc_requested.cost_day then
      cost_calc device_name settings cfg sent fetch now { days := 1 }
    else Except.ok ([], sent)
  match step1 with
  | .error e => .error e
  | .ok (out1, sent1) =>
      let step2 :=
        match cost_calc_requested.cost_month with
        | some target =>
            if check_matched_day now target then
              cost_calc device_name settings cfg sent1 fetch now { months := 1 }
            else Except.ok ([], sent1)
        | none => Except.ok ([], sent1)
      match step2 with
      | .error e => .error e
      | .ok (out2, sent2) =>
          let step3 :=
            match cost_calc_requested.cost_year with
            | some t =>
                if check_matched_day_and_month now t.day t.month then
                  cost_calc device_name settings cfg sent2 fetch now { years := 1 }
                else Except.ok ([], sent2)
            | none => Except.ok ([], sent2)
          match step3 with
          | .error e => .error e
          | .ok (out3, sent3) => .ok (out1 ++ out2 ++ out3, sent3)

/-- A well-formed configuration file whose price is the float `0.3`. -/
def goodCfg : ConfigFile :=
  ConfigFile.present (some { price_kwh := some (JsonPrice.flt (3 / 10)) })

/-- The worked sample set of the spec: 10 fetched points, 8 successful with
1000 Wh each and 2 failed. -/
def costScenarioSamples : List Measurement :=
  [⟨true, 1000⟩, ⟨true, 1000⟩, ⟨true, 1000⟩, ⟨true, 1000⟩, ⟨true, 1000⟩,
   ⟨true, 1000⟩, ⟨true, 1000⟩, ⟨true, 1000⟩, ⟨false, 0⟩, ⟨false, 0⟩]

/-! ### Calendar lemmas -/

theorem daysInMonth_bounds (y m : ℕ) : 28 ≤ daysInMonth y m ∧ daysInMonth y m ≤ 31 := by
  unfold daysInMonth
  split_ifs <;> omega

theorem daysBeforeMonth_succ (y : ℕ) :
    ∀ m, 1 ≤ m → daysBeforeMonth y (m + 1) = daysBeforeMonth y m + daysInMonth y m := by
  intro m hm
  match m, hm with
  | (k + 1), _ => rfl

theorem last_day_of_month_eq (d : Date) (h1 : 1 ≤ d.month) (h12 : d.month ≤ 12) :
    last_day_of_month d = ⟨d.year, d.month, daysInMonth d.year d.month⟩ := by
  obtain ⟨y, m, dd⟩ := d
  simp only at h1 h12
  unfold last_day_of_month predDay
  dsimp only
  split_ifs with hm h2 h3
  · subst hm
    simp [daysInMonth, Date.mk.injEq]
  · omega
  · simp [Date.mk.injEq, Nat.add_sub_cancel]
  · omega

theorem daysBeforeMonth_12 (y : ℕ) :
    daysBeforeMonth y 12 + 31 = if isLeapYear y then 366 else 365 := by
  show daysBeforeMonth y 12 + 31 = _
  simp only [daysBeforeMonth, daysInMonth, isLeapYear]
  norm_num
  split_ifs <;> omega

set_option maxHeartbeats 1000000 in
theorem toOrdinal_predDay (d : Date) (h : d.valid) (hy : 2 ≤ d.year) :
    toOrdinal (predDay d) + 1 = toOrdinal d := by
  obtain ⟨y, m, dd⟩ := d
  obtain ⟨hy1, hm1, hm12, hd1, hd2⟩ := h
  simp only at hy1 hm1 hm12 hd1 hd2 hy
  unfold predDay
  dsimp only
  split_ifs with h2 h3
  · unfold toOrdinal
    dsimp only
    omega
  · have hmm : m - 1 + 1 = m := by omega
    have hrec := daysBeforeMonth_succ y (m - 1) (by omega)
    rw [hmm] at hrec
    unfold toOrdinal
    dsimp only
    omega
  · have hm : m = 1 := by omega
    have hd : dd = 1 := by omega
    subst hm hd
    have h12 := daysBeforeMonth_12 (y - 1)
    unfold toOrdinal
    dsimp only
    show 365 * (y - 1 - 1) + (y - 1 - 1) / 4 - (y - 1 - 1) / 100 + (y - 1 - 1) / 400
        + daysBeforeMonth (y - 1) 12 + 31 + 1
      = 365 * (y - 1) + (y - 1) / 4 - (y - 1) / 100 + (y - 1) / 400 + daysBeforeMonth y 1 + 1
    have hb1 : daysBeforeMonth y 1 = 0 := rfl
    simp only [isLeapYear, Bool.or_eq_true, Bool.and_eq_true, beq_iff_eq, bne_iff_ne,
      ne_eq] at h12
    rw [hb1]
    split_ifs at h12 <;> omega

theorem daysInMonth_12 (y : ℕ) : daysInMonth y 12 = 31 := by
  norm_num [daysInMonth]

theorem subMonths_zero (y m : ℕ) (h1 : 1 ≤ m) (h12 : m ≤ 12) : subMonths y m 0 = (y, m) := by
  unfold subMonths
  simp only [Prod.mk.injEq]
  constructor <;> omega

theorem subMonths_one (y m : ℕ) (h1 : 1 ≤ m) (h12 : m ≤ 12) (hy : 1 ≤ y) :
    subMonths y m 1 = if m = 1 then (y - 1, 12) else (y, m - 1) := by
  unfold subMonths
  split_ifs with hm <;> simp only [Prod.mk.injEq] <;> constructor <;> omega

theorem subRelativeDelta_day (d : Date) (h : d.valid) :
    d.subRelativeDelta ⟨1, 0, 0⟩ = predDay d := by
  obtain ⟨y, m, dd⟩ := d
  obtain ⟨hy1, hm1, hm12, hd1, hd2⟩ := h
  simp only at hm1 hm12 hd2
  unfold Date.subRelativeDelta
  simp only [Nat.sub_zero, subMonths_zero y m hm1 hm12, Function.iterate_one]
  rw [min_eq_left hd2]

theorem subRelativeDelta_month (d : Date) (h : d.valid) :
    d.subRelativeDelta ⟨0, 1, 0⟩ =
      if d.month = 1 then ⟨d.year - 1, 12, min d.day 31⟩
      else ⟨d.year, d.month - 1, min d.day (daysInMonth d.year (d.month - 1))⟩ := by
  obtain ⟨y, m, dd⟩ := d
  obtain ⟨hy1, hm1, hm12, hd1, hd2⟩ := h
  simp only at hy1 hm1 hm12
  unfold Date.subRelativeDelta
  simp only [Nat.sub_zero, subMonths_one y m hm1 hm12 hy1, Function.iterate_zero, id_eq]
  split_ifs with hm <;> simp [daysInMonth_12]

theorem subRelativeDelta_year (d : Date) (h : d.valid) :
    d.subRelativeDelta ⟨0, 0, 1⟩ =
      ⟨d.year - 1, d.month, min d.day (daysInMonth (d.year - 1) d.month)⟩ := by
  obtain ⟨y, m, dd⟩ := d
  obtain ⟨hy1, hm1, hm12, hd1, hd2⟩ := h
  simp only at hm1 hm12
  unfold Date.subRelativeDelta
  simp only [subMonths_zero (y - 1) m hm1 hm12, Function.iterate_zero, id_eq]

theorem dayOfYear_le (y m dd : ℕ) (h1 : 1 ≤ m) (h12 : m ≤ 12) (hd : dd ≤ daysInMonth y m) :
    daysBeforeMonth y m + dd ≤ daysBeforeMonth y 12 + 31 := by
  have hdim := daysInMonth_12 y
  interval_cases m <;> norm_num [daysBeforeMonth] <;> omega

set_option maxHeartbeats 1000000 in
theorem toOrdinal_year_base (y : ℕ) (hy : 2 ≤ y) :
    365 * (y - 2) + (y - 2) / 4 - (y - 2) / 100 + (y - 2) / 400
        + (daysBeforeMonth (y - 1) 12 + 31)
      = 365 * (y - 1) + (y - 1) / 4 - (y - 1) / 100 + (y - 1) / 400 := by
  have h12 := daysBeforeMonth_12 (y - 1)
  simp only [isLeapYear, Bool.or_eq_true, Bool.and_eq_true, beq_iff_eq, bne_iff_ne,
    ne_eq] at h12
  split_ifs at h12 <;> omega

theorem toOrdinal_subDay_lt (d : Date) (h : d.valid) (hy : 2 ≤ d.year) :
    toOrdinal (d.subRelativeDelta ⟨1, 0, 0⟩) + 1 = toOrdinal d := by
  rw [subRelativeDelta_day d h]
  exact toOrdinal_predDay d h hy

theorem toOrdinal_subMonth_lt (d : Date) (h : d.valid) (hy : 2 ≤ d.year) :
    toOrdinal (d.subRelativeDelta ⟨0, 1, 0⟩) < toOrdinal d := by
  have hsub := subRelativeDelta_month d h
  obtain ⟨y, m, dd⟩ := d
  obtain ⟨hy1, hm1, hm12, hd1, hd2⟩ := h
  simp only at hy1 hm1 hm12 hd1 hd2 hy
  rw [hsub]
  dsimp only
  split_ifs with hm
  · subst hm
    unfold toOrdinal
    dsimp only
    have hbase := toOrdinal_year_base y hy
    have hb1 : daysBeforeMonth y 1 = 0 := rfl
    have hmin : min dd 31 ≤ 31 := min_le_right _ _
    omega
  · unfold toOrdinal
    dsimp only
    have hrec := daysBeforeMonth_succ y (m - 1) (by omega)
    rw [show m - 1 + 1 = m by omega] at hrec
    have hmin : min dd (daysInMonth y (m - 1)) ≤ daysInMonth y (m - 1) := min_le_right _ _
    omega

theorem toOrdinal_subYear_lt (d : Date) (h : d.valid) (hy : 2 ≤ d.year) :
    toOrdinal (d.subRelativeDelta ⟨0, 0, 1⟩) < toOrdinal d := by
  have hsub := subRelativeDelta_year d h
  obtain ⟨y, m, dd⟩ := d
  obtain ⟨hy1, hm1, hm12, hd1, hd2⟩ := h
  simp only at hy1 hm1 hm12 hd1 hd2 hy
  rw [hsub]
  unfold toOrdinal
  dsimp only
  have hdoy := dayOfYear_le (y - 1) m (min dd (daysInMonth (y - 1) m)) hm1 hm12
    (min_le_right _ _)
  have hbase := toOrdinal_year_base y hy
  omega

/-! ### Aggregation lemmas -/

theorem length_filter_pair (l : List Measurement) :
    (l.filter (fun measurement => measurement.fetch_success)).length
      + (l.filter (fun measurement => !measurement.fetch_success)).length = l.length := by
  induction l with
  | nil => rfl
  | cons x xs ih =>
      cases hx : x.fetch_success <;> simp [List.filter_cons, hx] <;> omega

theorem check_cost_config_goodCfg (s : WarnDict) :
    check_cost_config goodCfg s = Except.ok (3 / 10, s) := by
  have h : pyRound (3 / 10) 3 = 3 / 10 := by
    norm_num [pyRound, roundHalfToEven, Rat.floor_def']
  simp [check_cost_config, goodCfg, h]

theorem total_seconds_pos (a b : Date) (h : toOrdinal a < toOrdinal b) :
    0 < total_seconds a b := by
  unfold total_seconds
  have hz : (toOrdinal a : ℤ) < (toOrdinal b : ℤ) := by exact_mod_cast h
  have h1 : (0 : ℤ) < ((toOrdinal b : ℤ) - (toOrdinal a : ℤ)) * 86400 := by
    have : (0 : ℤ) < (toOrdinal b : ℤ) - (toOrdinal a : ℤ) := by omega
    exact mul_pos this (by norm_num)
  exact_mod_cast h1

theorem cost_calc_emits (device_name : String) (u : ℚ) (cfg : ConfigFile)
    (sent sent' : WarnDict) (price : ℚ)
    (hcfg : check_cost_config cfg sent = Except.ok (price, sent'))
    (fetch : Date → Date → List Measurement) (now : Date) (td : RelativeDelta)
    (hu : u ≠ 0)
    (hdiff : toOrdinal (now.subRelativeDelta td) < toOrdinal now)
    (hne : fetch (now.subRelativeDelta td) now ≠ []) :
    ∃ rec : CostData,
      cost_calc device_name { update_time := u } cfg sent fetch now td =
        Except.ok
          ((if td.days = 1 then [(device_name ++ "_day", rec)]
            else if td.months = 1 then [(device_name ++ "_month", rec)]
            else if td.years = 1 then [(device_name ++ "_year", rec)]
            else []), sent') ∧
      rec.start_date = now.subRelativeDelta td ∧
      rec.end_date = now ∧
      rec.cost_kwh = price ∧
      rec.sum_of_energy = pyRound
        ((((fetch (now.subRelativeDelta td) now).filter
            (fun measurement => measurement.fetch_success)).map Measurement.energy_wh).sum
          / 1000) 2 ∧
      rec.total_cost = rec.sum_of_energy * price ∧
      rec.error_rate_one =
        (((fetch (now.subRelativeDelta td) now).filter
            (fun measurement => !measurement.fetch_success)).length : ℚ) * 100 /
          ((((fetch (now.subRelativeDelta td) now).filter
              (fun measurement => measurement.fetch_success)).length : ℚ)
            + (((fetch (now.subRelativeDelta td) now).filter
                (fun measurement => !measurement.fetch_success)).length : ℚ)) ∧
      rec.error_rate_two =
        (total_seconds (now.subRelativeDelta td) now / u
            - (((fetch (now.subRelativeDelta td) now).filter
                (fun measurement => measurement.fetch_success)).length : ℚ)) * 100 /
          (total_seconds (now.subRelativeDelta td) now / u) := by
  have hlen : ¬(((fetch (now.subRelativeDelta td) now).filter
      (fun measurement => measurement.fetch_success)).length
        + ((fetch (now.subRelativeDelta td) now).filter
            (fun measurement => !measurement.fetch_success)).length = 0) := by
    rw [length_filter_pair]
    intro h0
    exact hne (List.length_eq_zero.mp h0)
  have hts := total_seconds_pos (now.subRelativeDelta td) now hdiff
  have hmax : ¬(total_seconds (now.subRelativeDelta td) now / u = 0) :=
    div_ne_zero hts.ne' hu
  refine ⟨⟨now.subRelativeDelta td, now,
      pyRound ((((fetch (now.subRelativeDelta td) now).filter
        (fun measurement => measurement.fetch_success)).map Measurement.energy_wh).sum
          / 1000) 2,
      pyRound ((((fetch (now.subRelativeDelta td) now).filter
        (fun measurement => measurement.fetch_success)).map Measurement.energy_wh).sum
          / 1000) 2 * price,
      price,
      (((fetch (now.subRelativeDelta td) now).filter
          (fun measurement => !measurement.fetch_success)).length : ℚ) * 100 /
        ((((fetch (now.subRelativeDelta td) now).filter
            (fun measurement => measurement.fetch_success)).length : ℚ)
          + (((fetch (now.subRelativeDelta td) now).filter
              (fun measurement => !measurement.fetch_success)).length : ℚ)),
      (total_seconds (now.subRelativeDelta td) now / u
          - (((fetch (now.subRelativeDelta td) now).filter
              (fun measurement => measurement.fetch_success)).length : ℚ)) * 100 /
        (total_seconds (now.subRelativeDelta td) now / u)⟩,
    ?_, rfl, rfl, rfl, rfl, rfl, rfl, rfl⟩
  simp only [cost_calc]
  rw [hcfg]
  simp only []
  rw [if_neg hlen, if_neg hu, if_neg hmax]
  split_ifs <;> rfl

/-! ### Claim theorems -/

/-- Claim C8: for every valid date, `last_day_of_month` returns a date in the
same year and month whose day is the actual last calendar day of that month --
28, 29, 30 or 31, and 29 for February of a leap year -- computed as day 31 for
December and otherwise as the day before the first of the next month. -/
theorem last_day_of_month_correct (d : Date) (h : d.valid) :
    last_day_of_month d = ⟨d.year, d.month, daysInMonth d.year d.month⟩ ∧
    (daysInMonth d.year d.month = 28 ∨ daysInMonth d.year d.month = 29 ∨
      daysInMonth d.year d.month = 30 ∨ daysInMonth d.year d.month = 31) ∧
    (d.month = 2 → isLeapYear d.year = true → (last_day_of_month d).day = 29) := by
  obtain ⟨hy1, hm1, hm12, hd1, hd2⟩ := h
  refine ⟨last_day_of_month_eq d hm1 hm12, ?_, ?_⟩
  · unfold daysInMonth
    split_ifs <;> omega
  · intro h2 hl
    rw [last_day_of_month_eq d hm1 hm12]
    dsimp only
    rw [h2]
    simp [daysInMonth, hl]

/-- Witness for C8 at the leap-year date 2024-02-10. -/
theorem last_day_of_month_correct_witness :
    Date.valid ⟨2024, 2, 10⟩ ∧ last_day_of_month ⟨2024, 2, 10⟩ = ⟨2024, 2, 29⟩ := by
  refine ⟨by decide, ?_⟩
  have h := (last_day_of_month_correct ⟨2024, 2, 10⟩ (by decide)).1
  rw [h]
  decide

/-- Claim C4: for every valid date and target day, `check_matched_day` returns
true iff either the target exceeds the length of the current month and today is
the month's last day, or the target fits the month and today equals it; in
particular target 31 matches on the last day of every month. -/
theorem check_matched_day_spec (d : Date) (t : ℕ) (h : d.valid) :
    (check_matched_day d t = true ↔
      ((daysInMonth d.year d.month < t ∧ d.day = daysInMonth d.year d.month) ∨
        (t ≤ daysInMonth d.year d.month ∧ d.day = t))) ∧
    (d.day = daysInMonth d.year d.month → check_matched_day d 31 = true) := by
  obtain ⟨hy1, hm1, hm12, hd1, hd2⟩ := h
  have hld := last_day_of_month_eq d hm1 hm12
  have h31 := (daysInMonth_bounds d.year d.month).2
  constructor
  · simp only [check_matched_day, hld]
    split_ifs with h1 h2 <;> simp <;> omega
  · intro hday
    simp only [check_matched_day, hld]
    split_ifs with h1 h2 <;> first | rfl | omega

/-- Witness for C4: target 31 matches on 2024-02-29 and on 2023-02-28, the last
days of a leap-year and a common-year February. -/
theorem check_matched_day_spec_witness :
    check_matched_day ⟨2024, 2, 29⟩ 31 = true ∧ check_matched_day ⟨2023, 2, 28⟩ 31 = true := by
  constructor
  · exact (check_matched_day_spec ⟨2024, 2, 29⟩ 31 (by decide)).2 (by decide)
  · exact (check_matched_day_spec ⟨2023, 2, 28⟩ 31 (by decide)).2 (by decide)

/-- Claim C10: the resolver's `start_schedule_task` flag is true iff at least
one cadence is active, and `cost_month`/`cost_year` are non-None only when the
corresponding settings value matched its regex shape. -/
theorem check_cost_calc_requested_invariant (s : Settings) :
    ((check_cost_calc_requested s).start_schedule_task = true ↔
      ((check_cost_calc_requested s).cost_day = true ∨
        (check_cost_calc_requested s).cost_month ≠ none ∨
        (check_cost_calc_requested s).cost_year ≠ none)) ∧
    ((check_cost_calc_requested s).cost_month ≠ none →
      ∃ v, s.cost_calc_month = some v ∧ matchDayOfMonthSchedule v = true) ∧
    ((check_cost_calc_requested s).cost_year ≠ none →
      ∃ v, s.cost_calc_year = some v ∧ matchDateOfYearSchedule v = true) := by
  obtain ⟨cd, cm, cy, ut⟩ := s
  rcases cd with _ | b <;> rcases cm with _ | sm <;> rcases cy with _ | sy <;>
    simp only [check_cost_calc_requested] <;>
    (try split_ifs) <;>
    simp_all

/-- Claim C1 (code bug): the monthly schedule value "31" matches the two-digit
shape, but the resolver validates it with `check_month_parameter`, which treats
every value above 12 as implausible and substitutes 1; the descriptor therefore
carries target day 1 instead of 31 (the cadence is still enabled). -/
theorem month_schedule_day_thirtyone_clamped :
    check_month_parameter "31" = 1 ∧
    check_cost_calc_requested { cost_calc_month := some "31" } =
      { start_schedule_task := true, cost_day := false, cost_month := some 1,
        cost_year := none } := by
  constructor <;> decide

/-- Claim C2 (code bug): with the configuration file missing, or with an
unparseable price string, the `except` handlers look up the exception classes
`FileNotFoundError`/`ValueError` in the suppression dict, whose keys are the
corresponding *strings*; both configuration readers therefore raise `KeyError`
to the caller instead of returning the documented defaults. -/
theorem config_defect_raises_key_error :
    check_cost_config ConfigFile.missing configuration_failed_message_send =
      Except.error PyErr.keyError ∧
    check_cost_calc_request_time ConfigFile.missing configuration_failed_message_send =
      Except.error PyErr.keyError ∧
    check_cost_config
        (ConfigFile.present (some { price_kwh := some (JsonPrice.str "abc") }))
        configuration_failed_message_send =
      Except.error PyErr.keyError := by
  refine ⟨rfl, rfl, rfl⟩

/-- Claim C9: when the fetched sample set for the window is empty, `cost_calc`
returns normally without handing any record to the sink. -/
theorem cost_calc_empty_no_record (device_name : String) (settings : Settings)
    (cfg : ConfigFile) (sent sent' : WarnDict) (price : ℚ)
    (hcfg : check_cost_config cfg sent = Except.ok (price, sent'))
    (fetch : Date → Date → List Measurement) (now : Date) (td : RelativeDelta)
    (hempty : fetch (now.subRelativeDelta td) now = []) :
    cost_calc device_name settings cfg sent fetch now td = Except.ok ([], sent') := by
  simp only [cost_calc]
  rw [hcfg, hempty]
  simp

/-- Witness for C9: an empty fetch over a one-month window emits nothing. -/
theorem cost_calc_empty_no_record_witness :
    cost_calc "dev" { update_time := 60 } goodCfg configuration_failed_message_send
        (fun _ _ => []) ⟨2024, 5, 15⟩ ⟨0, 1, 0⟩ =
      Except.ok ([], configuration_failed_message_send) :=
  cost_calc_empty_no_record "dev" { update_time := 60 } goodCfg
    configuration_failed_message_send configuration_failed_message_send (3 / 10)
    (check_cost_config_goodCfg configuration_failed_message_send)
    (fun _ _ => []) ⟨2024, 5, 15⟩ ⟨0, 1, 0⟩ rfl

/-- Claim C5: for every nonempty fetched sample set, the emitted record has
`sum_of_energy` equal to the successful watt-hours divided by 1000 and rounded
to 2 decimals, `total_cost` equal to `sum_of_energy` times the configured
price, and `error_rate_one` equal to 100 times the failed count divided by the
total fetched count. -/
theorem cost_calc_record_values (device_name : String) (u : ℚ) (cfg : ConfigFile)
    (sent sent' : WarnDict) (price : ℚ)
    (hcfg : check_cost_config cfg sent = Except.ok (price, sent'))
    (ms : List Measurement) (hms : ms ≠ []) (now : Date)
    (hv : now.valid) (hy : 2 ≤ now.year) (hu : u ≠ 0) :
    ∃ rec : CostData,
      cost_calc device_name { update_time := u } cfg sent (fun _ _ => ms) now ⟨1, 0, 0⟩ =
        Except.ok ([(device_name ++ "_day", rec)], sent') ∧
      rec.sum_of_energy =
        pyRound (((ms.filter (fun measurement => measurement.fetch_success)).map
            Measurement.energy_wh).sum / 1000) 2 ∧
      rec.total_cost = rec.sum_of_energy * price ∧
      rec.error_rate_one =
        100 * ((ms.filter (fun measurement => !measurement.fetch_success)).length : ℚ)
          / (ms.length : ℚ) := by
  have hdiff : toOrdinal (now.subRelativeDelta ⟨1, 0, 0⟩) < toOrdinal now := by
    have := toOrdinal_subDay_lt now hv hy
    omega
  obtain ⟨rec, heq, hstart, hend, hkwh, hsum, htot, hr1, hr2⟩ :=
    cost_calc_emits device_name u cfg sent sent' price hcfg (fun _ _ => ms) now
      ⟨1, 0, 0⟩ hu hdiff hms
  refine ⟨rec, ?_, hsum, ?_, ?_⟩
  · rw [heq]
    norm_num
  · rw [htot]
  · rw [hr1]
    have hl : ((ms.filter (fun measurement => measurement.fetch_success)).length : ℚ)
        + ((ms.filter (fun measurement => !measurement.fetch_success)).length : ℚ)
        = (ms.length : ℚ) := by
      exact_mod_cast length_filter_pair ms
    rw [hl]
    ring

/-- Witness for C5: the spec's scenario of 10 fetched samples (8 successful
with 1000 Wh each, 2 failed) at price 0.30 yields energy 8.00 kWh, cost 2.40
and a missing-rate of 20 percent. -/
theorem cost_calc_record_values_witness :
    ∃ rec : CostData,
      cost_calc "dev" { update_time := 60 } goodCfg configuration_failed_message_send
          (fun _ _ => costScenarioSamples) ⟨2024, 5, 15⟩ ⟨1, 0, 0⟩ =
        Except.ok ([("dev" ++ "_day", rec)], configuration_failed_message_send) ∧
      rec.sum_of_energy = 8 ∧ rec.total_cost = 24 / 10 ∧ rec.error_rate_one = 20 := by
  obtain ⟨rec, heq, hsum, htot, hr1⟩ :=
    cost_calc_record_values "dev" 60 goodCfg configuration_failed_message_send
      configuration_failed_message_send (3 / 10)
      (check_cost_config_goodCfg configuration_failed_message_send)
      costScenarioSamples (by decide) ⟨2024, 5, 15⟩ (by decide) (by norm_num) (by norm_num)
  have hsum8 : rec.sum_of_energy = 8 := by
    rw [hsum]
    norm_num [costScenarioSamples, List.filter, pyRound, roundHalfToEven, Rat.floor_def']
  refine ⟨rec, heq, hsum8, ?_, ?_⟩
  · rw [htot, hsum8]
    norm_num
  · rw [hr1]
    norm_num [costScenarioSamples, List.filter]

/-- Claim C7: for every nonempty fetched sample set with nonzero expected
sample count, `error_rate_two` equals 100 times (expected minus successful)
divided by expected, where expected is the window length in seconds divided by
the update interval; oversampling makes it negative and the negative value is
kept in the record. -/
theorem cost_calc_coverage_rate (device_name : String) (u : ℚ) (cfg : ConfigFile)
    (sent sent' : WarnDict) (price : ℚ)
    (hcfg : check_cost_config cfg sent = Except.ok (price, sent'))
    (ms : List Measurement) (hms : ms ≠ []) (now : Date)
    (hv : now.valid) (hy : 2 ≤ now.year) (hu : 0 < u) :
    ∃ rec : CostData,
      cost_calc device_name { update_time := u } cfg sent (fun _ _ => ms) now ⟨1, 0, 0⟩ =
        Except.ok ([(device_name ++ "_day", rec)], sent') ∧
      rec.error_rate_two =
        100 * (total_seconds (now.subRelativeDelta ⟨1, 0, 0⟩) now / u
            - ((ms.filter (fun measurement => measurement.fetch_success)).length : ℚ))
          / (total_seconds (now.subRelativeDelta ⟨1, 0, 0⟩) now / u) ∧
      (total_seconds (now.subRelativeDelta ⟨1, 0, 0⟩) now / u
          < ((ms.filter (fun measurement => measurement.fetch_success)).length : ℚ) →
        rec.error_rate_two < 0) := by
  have hdiff : toOrdinal (now.subRelativeDelta ⟨1, 0, 0⟩) < toOrdinal now := by
    have := toOrdinal_subDay_lt now hv hy
    omega
  obtain ⟨rec, heq, hstart, hend, hkwh, hsum, htot, hr1, hr2⟩ :=
    cost_calc_emits device_name u cfg sent sent' price hcfg (fun _ _ => ms) now
      ⟨1, 0, 0⟩ hu.ne' hdiff hms
  have hE : 0 < total_seconds (now.subRelativeDelta ⟨1, 0, 0⟩) now / u :=
    div_pos (total_seconds_pos _ _ hdiff) hu
  refine ⟨rec, ?_, ?_, ?_⟩
  · rw [heq]
    norm_num
  · rw [hr2]
    ring
  · intro hlt
    rw [hr2]
    apply div_neg_of_neg_of_pos _ hE
    have hneg : total_seconds (now.subRelativeDelta ⟨1, 0, 0⟩) now / u
        - ((ms.filter (fun measurement => measurement.fetch_success)).length : ℚ) < 0 :=
      sub_neg.mpr hlt
    exact mul_neg_of_neg_of_pos hneg (by norm_num)

/-- Witness for C7: a one-day window with update interval 86400 s expects one
sample; two successful samples make the coverage rate -100, kept negative. -/
theorem cost_calc_coverage_rate_witness :
    ∃ rec : CostData,
      cost_calc "dev" { update_time := 86400 } goodCfg configuration_failed_message_send
          (fun _ _ => [⟨true, 500⟩, ⟨true, 500⟩]) ⟨2024, 5, 15⟩ ⟨1, 0, 0⟩ =
        Except.ok ([("dev" ++ "_day", rec)], configuration_failed_message_send) ∧
      rec.error_rate_two = -100 ∧ rec.error_rate_two < 0 := by
  obtain ⟨rec, heq, hr2, hneg⟩ :=
    cost_calc_coverage_rate "dev" 86400 goodCfg configuration_failed_message_send
      configuration_failed_message_send (3 / 10)
      (check_cost_config_goodCfg configuration_failed_message_send)
      [⟨true, 500⟩, ⟨true, 500⟩] (by decide) ⟨2024, 5, 15⟩ (by decide) (by norm_num)
      (by norm_num)
  have h1 := toOrdinal_subDay_lt ⟨2024, 5, 15⟩ (by decide) (by norm_num)
  have hts : total_seconds (Date.subRelativeDelta ⟨2024, 5, 15⟩ ⟨1, 0, 0⟩) ⟨2024, 5, 15⟩
      = 86400 := by
    unfold total_seconds
    rw [← h1]
    push_cast
    ring
  have hcnt : (([⟨true, 500⟩, ⟨true, 500⟩] : List Measurement).filter
      (fun measurement => measurement.fetch_success)).length = 2 := by decide
  refine ⟨rec, heq, ?_, ?_⟩
  · rw [hr2, hts, hcnt]
    norm_num
  · refine hneg ?_
    rw [hts, hcnt]
    norm_num

/-- Claim C6: one timestamp `now` is captured and reused for every cadence
check; the day record (key name + "_day", window [now - 1 day, now)) is emitted
iff `cost_day` is set, the month record (key name + "_month", window
[now - 1 calendar month, now)) iff the monthly target is set and
`check_matched_day` holds, and the year record (key name + "_year", window
[now - 1 calendar year, now)) iff the yearly target is set and day and month
both match; window starts use calendar arithmetic, e.g. 2024-03-31 minus one
month is 2024-02-29. -/
theorem cost_calc_handler_spec (device_name : String) (u : ℚ) (req : RequestedCalc)
    (cfg : ConfigFile) (sent : WarnDict) (price : ℚ)
    (fetch : Date → Date → List Measurement) (now : Date)
    (hu : u ≠ 0)
    (hcfg : ∀ s, check_cost_config cfg s = Except.ok (price, s))
    (hfetch : ∀ a b, fetch a b ≠ [])
    (hv : now.valid) (hy : 2 ≤ now.year) :
    ∃ o1 o2 o3 : List (String × CostData),
      cost_calc_handler device_name { update_time := u } req cfg sent fetch now =
        Except.ok (o1 ++ o2 ++ o3, sent) ∧
      (req.cost_day = true →
        ∃ rec : CostData, o1 = [(device_name ++ "_day", rec)] ∧
          rec.start_date = now.subRelativeDelta ⟨1, 0, 0⟩ ∧ rec.end_date = now) ∧
      (req.cost_day = false → o1 = []) ∧
      (∀ t, req.cost_month = some t → check_matched_day now t = true →
        ∃ rec : CostData, o2 = [(device_name ++ "_month", rec)] ∧
          rec.start_date = now.subRelativeDelta ⟨0, 1, 0⟩ ∧ rec.end_date = now) ∧
      ((req.cost_month = none ∨
          (∃ t, req.cost_month = some t ∧ check_matched_day now t = false)) → o2 = []) ∧
      (∀ t, req.cost_year = some t →
        check_matched_day_and_month now t.day t.month = true →
        ∃ rec : CostData, o3 = [(device_name ++ "_year", rec)] ∧
          rec.start_date = now.subRelativeDelta ⟨0, 0, 1⟩ ∧ rec.end_date = now) ∧
      ((req.cost_year = none ∨
          (∃ t, req.cost_year = some t ∧
            check_matched_day_and_month now t.day t.month = false)) → o3 = []) ∧
      Date.subRelativeDelta ⟨2024, 3, 31⟩ ⟨0, 1, 0⟩ = ⟨2024, 2, 29⟩ := by
  have hdiffD : toOrdinal (now.subRelativeDelta ⟨1, 0, 0⟩) < toOrdinal now := by
    have := toOrdinal_subDay_lt now hv hy
    omega
  have hdiffM := toOrdinal_subMonth_lt now hv hy
  have hdiffY := toOrdinal_subYear_lt now hv hy
  obtain ⟨st, cd, cm, cy⟩ := req
  dsimp only
  have H1 : ∃ o1 : List (String × CostData),
      (if cd = true then
        cost_calc device_name { update_time := u } cfg sent fetch now { days := 1 }
      else Except.ok ([], sent)) = Except.ok (o1, sent) ∧
      (cd = true → ∃ rec : CostData, o1 = [(device_name ++ "_day", rec)] ∧
        rec.start_date = now.subRelativeDelta ⟨1, 0, 0⟩ ∧ rec.end_date = now) ∧
      (cd = false → o1 = []) := by
    cases cd
    · exact ⟨[], by simp, by simp, fun _ => rfl⟩
    · obtain ⟨rec, heq, hstart, hend, hrest⟩ :=
        cost_calc_emits device_name u cfg sent sent price (hcfg sent) fetch now
          ⟨1, 0, 0⟩ hu hdiffD (hfetch _ _)
      refine ⟨[(device_name ++ "_day", rec)], ?_, ?_, by simp⟩
      · rw [if_pos rfl]
        simpa using heq
      · intro _
        exact ⟨rec, rfl, hstart, hend⟩
  obtain ⟨o1, he1, h1t, h1f⟩ := H1
  have H2 : ∃ o2 : List (String × CostData),
      (match cm with
        | some target =>
            if check_matched_day now target = true then
              cost_calc device_name { update_time := u } cfg sent fetch now { months := 1 }
            else Except.ok ([], sent)
        | none => Except.ok ([], sent)) = Except.ok (o2, sent) ∧
      (∀ t, cm = some t → check_matched_day now t = true →
        ∃ rec : CostData, o2 = [(device_name ++ "_month", rec)] ∧
          rec.start_date = now.subRelativeDelta ⟨0, 1, 0⟩ ∧ rec.end_date = now) ∧
      ((cm = none ∨ (∃ t, cm = some t ∧ check_matched_day now t = false)) → o2 = []) := by
    cases cm with
    | none => exact ⟨[], rfl, by simp, fun _ => rfl⟩
    | some t =>
        by_cases hm : check_matched_day now t = true
        · obtain ⟨rec, heq, hstart, hend, hrest⟩ :=
            cost_calc_emits device_name u cfg sent sent price (hcfg sent) fetch now
              ⟨0, 1, 0⟩ hu hdiffM (hfetch _ _)
          refine ⟨[(device_name ++ "_month", rec)], ?_, ?_, ?_⟩
          · exact (if_pos hm).trans (by simpa using heq)
          · intro t' ht'
            obtain rfl : t = t' := by injection ht'
            intro _
            exact ⟨rec, rfl, hstart, hend⟩
          · rintro (h | ⟨t', ht', hf⟩)
            · exact absurd h (by simp)
            · obtain rfl : t = t' := by injection ht'
              exact absurd hm (by simp [hf])
        · refine ⟨[], if_neg hm, ?_, fun _ => rfl⟩
          intro t' ht'
          obtain rfl : t = t' := by injection ht'
          intro hmt
          exact absurd hmt hm
  obtain ⟨o2, he2, h2t, h2f⟩ := H2
  have H3 : ∃ o3 : List (String × CostData),
      (match cy with
        | some t =>
            if check_matched_day_and_month now t.day t.month = true then
              cost_calc device_name { update_time := u } cfg sent fetch now { years := 1 }
            else Except.ok ([], sent)
        | none => Except.ok ([], sent)) = Except.ok (o3, sent) ∧
      (∀ t, cy = some t → check_matched_day_and_month now t.day t.month = true →
        ∃ rec : CostData, o3 = [(device_name ++ "_year", rec)] ∧
          rec.start_date = now.subRelativeDelta ⟨0, 0, 1⟩ ∧ rec.end_date = now) ∧
      ((cy = none ∨ (∃ t, cy = some t ∧
          check_matched_day_and_month now t.day t.month = false)) → o3 = []) := by
    cases cy with
    | none => exact ⟨[], rfl, by simp, fun _ => rfl⟩
    | some t =>
        by_cases hm : check_matched_day_and_month now t.day t.month = true
        · obtain ⟨rec, heq, hstart, hend, hrest⟩ :=
            cost_calc_emits device_name u cfg sent sent price (hcfg sent) fetch now
              ⟨0, 0, 1⟩ hu hdiffY (hfetch _ _)
          refine ⟨[(device_name ++ "_year", rec)], ?_, ?_, ?_⟩
          · exact (if_pos hm).trans (by simpa using heq)
          · intro t' ht'
            obtain rfl : t = t' := by injection ht'
            intro _
            exact ⟨rec, rfl, hstart, hend⟩
          · rintro (h | ⟨t', ht', hf⟩)
            · exact absurd h (by simp)
            · obtain rfl : t = t' := by injection ht'
              exact absurd hm (by simp [hf])
        · refine ⟨[], if_neg hm, ?_, fun _ => rfl⟩
          intro t' ht'
          obtain rfl : t = t' := by injection ht'
          intro hmt
          exact absurd hmt hm
  obtain ⟨o3, he3, h3t, h3f⟩ := H3
  refine ⟨o1, o2, o3, ?_, h1t, h1f, h2t, h2f, h3t, h3f, by decide⟩
  simp only [cost_calc_handler]
  rw [he1]
  simp only []
  rw [he2]
  simp only []
  rw [he3]

/-- Witness for C6: on 2024-05-15, with the daily cadence on and monthly target
15, the handler emits the day record for [2024-05-14, 2024-05-15) and the month
record for [2024-04-15, 2024-05-15), and nothing for the unset year cadence. -/
theorem cost_calc_handler_spec_witness :
    ∃ o1 o2 o3 : List (String × CostData),
      cost_calc_handler "dev" { update_time := 60 }
          { start_schedule_task := true, cost_day := true, cost_month := some 15,
            cost_year := none }
          goodCfg configuration_failed_message_send (fun _ _ => [⟨true, 1000⟩])
          ⟨2024, 5, 15⟩ =
        Except.ok (o1 ++ o2 ++ o3, configuration_failed_message_send) ∧
      (∃ rec : CostData, o1 = [("dev" ++ "_day", rec)] ∧
        rec.start_date = ⟨2024, 5, 14⟩ ∧ rec.end_date = ⟨2024, 5, 15⟩) ∧
      (∃ rec : CostData, o2 = [("dev" ++ "_month", rec)] ∧
        rec.start_date = ⟨2024, 4, 15⟩ ∧ rec.end_date = ⟨2024, 5, 15⟩) ∧
      o3 = [] := by
  obtain ⟨o1, o2, o3, heq, h1t, h1f, h2t, h2f, h3t, h3f, hcal⟩ :=
    cost_calc_handler_spec "dev" 60
      { start_schedule_task := true, cost_day := true, cost_month := some 15,
        cost_year := none }
      goodCfg configuration_failed_message_send (3 / 10) (fun _ _ => [⟨true, 1000⟩])
      ⟨2024, 5, 15⟩ (by norm_num) check_cost_config_goodCfg
      (fun _ _ => List.cons_ne_nil _ _) (by decide) (by norm_num)
  refine ⟨o1, o2, o3, heq, ?_, ?_, h3f (Or.inl rfl)⟩
  · obtain ⟨rec, ho, hs, he⟩ := h1t rfl
    refine ⟨rec, ho, ?_, he⟩
    rw [hs]
    decide
  · obtain ⟨rec, ho, hs, he⟩ := h2t 15 rfl (by decide)
    refine ⟨rec, ho, ?_, he⟩
    rw [hs]
    decide

/-- Claim C3 (code bug): when `expected_sample_count` (the window length in
seconds divided by `update_time`) evaluates to zero and the fetched sample set
is nonempty, the `error_rate_two` division has no guard and the aggregator
raises `ZeroDivisionError` (here: a zero-length window from an empty
`relativedelta`). -/
theorem coverage_rate_division_unguarded :
    cost_calc "dev" { update_time := 1 } goodCfg configuration_failed_message_send
        (fun _ _ => [⟨true, 1000⟩]) ⟨2024, 5, 15⟩ ⟨0, 0, 0⟩ =
      Except.error PyErr.zeroDivisionError := by
  have hstart : Date.subRelativeDelta ⟨2024, 5, 15⟩ ⟨0, 0, 0⟩ = ⟨2024, 5, 15⟩ := by decide
  have hts : total_seconds (Date.subRelativeDelta ⟨2024, 5, 15⟩ ⟨0, 0, 0⟩) ⟨2024, 5, 15⟩
      = 0 := by
    rw [hstart]
    unfold total_seconds
    norm_num
  simp only [cost_calc]
  rw [check_cost_config_goodCfg]
  norm_num [hts, List.filter]
